import Mathlib

/-
Verification of the event-to-AMQP publication pipeline of
res_stasis_amqp.c (wazo-res-stasis-amqp).

Shallow embedding conventions:
* A C string is a list of byte values (`Bytes`); C string functions are
  translated byte-wise (no NUL terminator is modelled, a C string is its
  byte content).
* JSON documents (`ast_json`) are modelled by the inductive `Json`; an
  object keeps its fields as an association list in insertion order,
  which is what jansson exposes through its iteration API.
* Memory allocation (`ast_malloc`, `ast_strdup`, `ast_json_pack`,
  `ast_json_string_create` on a non-null argument, ...) is modelled as
  always succeeding; out-of-memory-only failure branches are therefore
  dead in the model, on both sides uniformly.
* Calls outside this module (AMQP connection lookup, `stasis_subscribe`,
  the broker publish, the scheduler) are modelled as environments of
  booleans saying whether each external call succeeds.
* Side effects that matter to the specification (connection resolution,
  the broker publish call, filter consultations) are recorded in an
  operation trace (`Op`), so that statements of the form "no publish
  call is issued" can be made about the trace.
-/

set_option autoImplicit false

namespace StasisAmqp

/-- Byte strings: a C string is modelled as the list of its byte values. -/
abbrev Bytes := List Nat

/-- Byte content of an ASCII Lean string literal. -/
def str (s : String) : Bytes := s.data.map (fun c => c.toNat)

/-- C `tolower` in the C locale, as used by `new_routing_key`: the ASCII
uppercase letters 65..90 are shifted to lowercase, every other byte
(non-ASCII bytes included) passes through unchanged. -/
def asciiToLower (c : Nat) : Nat := if 65 ≤ c ∧ c ≤ 90 then c + 32 else c

/-- Model of `new_routing_key` (res_stasis_amqp.c:585-612).  The C
function copies `sfx`, lowers each byte in place with `tolower`, and
formats `"%s.%s"` into a buffer of exactly the right size.  Its only
non-allocation failure check is `!(snprintf(...))`, i.e. a formatted
length of zero, which is the `length = 0` branch here; `snprintf`
returns the formatted length `|pfx| + 1 + |sfx|`. -/
def new_routing_key (pfx sfx : Bytes) : Option Bytes :=
  let lowered_suffix := sfx.map asciiToLower
  let routing_key := pfx ++ 46 :: lowered_suffix
  if routing_key.length = 0 then none else some routing_key

/-- The `strsep` tokenisation: repeatedly split a byte string at every
byte belonging to `delims`.  Each delimiter byte is a token boundary, so
consecutive delimiters produce empty tokens, exactly as the repeated
`strsep` calls in `manager_event_to_json` do; the result is never empty
(on an empty string, `strsep` yields one empty token and then NULL). -/
def splitChars (delims : List Nat) : Bytes → List Bytes
  | [] => [[]]
  | c :: rest =>
    match splitChars delims rest with
    | [] => [[]]
    | t :: ts => if c ∈ delims then [] :: t :: ts else (c :: t) :: ts

/-- One line of the manager field blob, as parsed by the inner loop of
`manager_event_to_json` (res_stasis_amqp.c:421-440): the line is split
at every byte of `": "`; `key` is set by the first token and never
overwritten, `value` is overwritten by every later token, so it ends up
being the last token when there are at least two tokens, and stays NULL
(here: `none`) otherwise, in which case `ast_json_string_create(NULL)`
fails and the line is skipped by `continue`. -/
def parseLineKV (line : Bytes) : Option (Bytes × Bytes) :=
  match splitChars [58, 32] line with
  | [] => none
  | [_] => none
  | k :: r :: rs => some (k, ((r :: rs).getLast?).getD [])

/-- An `ast_json` document.  Only the constructors the module
manipulates are distinguished; every event payload the handlers pass
through is built from strings and objects. -/
inductive Json where
  | str : Bytes → Json
  | obj : List (Bytes × Json) → Json

/-- Fields of a JSON object, in insertion order; non-objects have none
(`ast_json_object_size` and the object iterators yield nothing on a
non-object). -/
def json_object_fields : Json → List (Bytes × Json)
  | .obj l => l
  | _ => []

/-- Model of `ast_json_string_get`: the byte content of a JSON string,
NULL on a non-string. -/
def json_string_get : Json → Option Bytes
  | .str s => some s
  | _ => none

/-- Model of `ast_json_object_get`: first field with the given key. -/
def json_object_get (j : Json) (k : Bytes) : Option Json :=
  ((json_object_fields j).find? (fun p => decide (p.1 = k))).map (fun p => p.2)

/-- Model of `ast_json_object_string_get`: NULL unless the key is
present and its value is a string. -/
def json_object_string_get (j : Json) (k : Bytes) : Option Bytes :=
  (json_object_get j k).bind json_string_get

/-- Model of `ast_json_object_set` on an object: replace the value of an
existing key in place, otherwise append the new field (jansson keeps
insertion order).  The callers in this module only ever apply it to
objects. -/
def json_object_set (j : Json) (k : Bytes) (v : Json) : Json :=
  match j with
  | .obj l =>
    if l.any (fun p => decide (p.1 = k)) then
      .obj (l.map (fun p => if p.1 = k then (k, v) else p))
    else
      .obj (l ++ [(k, v)])
  | other => other

/-- Model of `manager_event_to_json` (res_stasis_amqp.c:404-444).  The C
function first sets the `Event` key to the manager event name on the
given object, then walks the `extra_fields` blob (`fields` is NULL when
the blob has no extra fields; `strsep(&fields, "\r\n")` then yields no
line at all): each `"\r\n"`-token is parsed by `parseLineKV` and the
surviving key/value pairs are set on the object in order.  The
`ast_json_object_set` failure branches fire only on allocation failure
and are not modelled. -/
def manager_event_to_json (json : Json) (event_name : Bytes) (fields : Option Bytes) : Json :=
  let json1 := json_object_set json (str ("Event")) (Json.str event_name)
  match fields with
  | none => json1
  | some f =>
    (splitChars [13, 10] f).foldl
      (fun acc line =>
        match parseLineKV line with
        | none => acc
        | some kv => json_object_set acc kv.1 (Json.str kv.2))
      json1

/-- The `global` section of stasis_amqp.conf, as read by the module
(struct stasis_amqp_global_conf).  `connection` and `exchange` are
`none` when the string field pointer is NULL (the publish code checks
exactly that); the two hash tables are modelled as the lists of their
members, since they are only ever used through string-equality lookup. -/
structure GlobalConf where
  connection : Option Bytes
  exchange : Option Bytes
  publish_ami_events : Bool
  publish_channel_events : Bool
  exclude_events : List Bytes
  include_channelvarset_events : List Bytes

/-- Model of `is_event_excluded` (res_stasis_amqp.c:289-306), together
with the number of hash-table lookups it performs.  When the exclude
set is empty the function returns 0 before touching the event name, so
even a NULL name is answered (with no lookup); with a non-empty set a
NULL name would be handed to `ast_hashtab_lookup`, whose string hash
dereferences it — that call is outside the defined behaviour of the C
code and is modelled as `none`. -/
def is_event_excluded (conf : GlobalConf) (event_name : Option Bytes) : Option (Bool × Nat) :=
  if conf.exclude_events.isEmpty then some (false, 0)
  else
    match event_name with
    | none => none
    | some k => some (decide (k ∈ conf.exclude_events), 1)

/-- Model of `is_channelvarset_included` (res_stasis_amqp.c:308-332),
with its lookup count.  Order of checks follows the C code: empty
include set first (default allow, no lookup), then the NULL-variable
check, then the hash-table lookup. -/
def is_channelvarset_included (conf : GlobalConf) (var_name : Option Bytes) : Bool × Nat :=
  if conf.include_channelvarset_events.isEmpty then (true, 0)
  else
    match var_name with
    | none => (false, 0)
    | some v => (decide (v ∈ conf.include_channelvarset_events), 1)

/-- The exclusion filter as the event handlers call it: they always pass
a non-NULL event name, for which `is_event_excluded` is total; the
default of `getD` is unreachable. -/
def event_excluded_b (conf : GlobalConf) (e : Bytes) : Bool :=
  ((is_event_excluded conf (some e)).getD (false, 0)).1

/-- Outcome of `publish_to_amqp`.  The C function returns 0 or -1; each
error constructor corresponds to one distinct early-return path (each
with its own log message), in source order. -/
inductive PubResult where
  | ok
  | notConfigured
  | connectionUnavailable
  | brokerPublishError

/-- The `amqp_basic_properties_t` fields this module sets.  The C
initialiser zero-initialises every member it does not name, so
`headers_flag = false` and `headers_entries = []` are the defaults. -/
structure BasicProps where
  delivery_mode_flag : Bool
  content_type_flag : Bool
  headers_flag : Bool
  delivery_mode : Nat
  content_type : Bytes
  headers_entries : List (Bytes × Bytes)

/-- One `ast_amqp_basic_publish` call, with every argument the module
passes.  The payload is carried as the JSON body handed to
`ast_json_dump_string`; serialisation itself is external library
behaviour and is not re-modelled. -/
structure PublishCall where
  exchange : Bytes
  routing_key : Bytes
  mandatory : Bool
  immediate : Bool
  props : BasicProps
  body : Json

/-- Observable operations of one event-handling run: the two filter
consultations, connection resolution, and the broker publish call. -/
inductive Op where
  | exclude_check : Bytes → Op
  | varset_check : Option Bytes → Op
  | resolve : Bytes → Op
  | publish : PublishCall → Op

/-- External AMQP environment: whether `ast_amqp_get_connection`
succeeds for a given connection name, and whether
`ast_amqp_basic_publish` succeeds. -/
structure AmqpEnv where
  get_connection : Bytes → Bool
  basic_publish_ok : Bool

/-- The header-table construction inside `publish_to_amqp`
(res_stasis_amqp.c:671-688): with NULL headers nothing is built and the
entry count stays zero; with a non-empty headers object one UTF8 entry
per field is built (values are strings for every caller;
`ast_json_string_get` on a non-string would yield NULL, modelled as the
empty byte string) and `AMQP_BASIC_HEADERS_FLAG` is set; with an empty
headers object neither happens. -/
def build_header_table (headers : Option Json) : Bool × List (Bytes × Bytes) :=
  match headers with
  | none => (false, [])
  | some h =>
    if 0 < (json_object_fields h).length then
      (true, (json_object_fields h).map (fun p => (p.1, (json_string_get p.2).getD [])))
    else (false, [])

/-- Number of header entries the given headers argument carries
(`ast_json_object_size`, 0 for NULL). -/
def headers_count (headers : Option Json) : Nat :=
  match headers with
  | none => 0
  | some h => (json_object_fields h).length

/-- The publish call `publish_to_amqp` issues once all its checks have
passed: mandatory and immediate are the literal 0 arguments, the
properties carry the delivery-mode and content-type flags of the struct
initialiser, delivery mode 2 (persistent) and content type
"application/json", and the header table of `build_header_table`. -/
def mk_publish_call (exchange_name routing_key : Bytes) (headers : Option Json) (body : Json) : PublishCall :=
  { exchange := exchange_name
    routing_key := routing_key
    mandatory := false
    immediate := false
    props :=
      { delivery_mode_flag := true
        content_type_flag := true
        headers_flag := (build_header_table headers).1
        delivery_mode := 2
        content_type := str ("application/json")
        headers_entries := (build_header_table headers).2 }
    body := body }

/-- Model of `publish_to_amqp` (res_stasis_amqp.c:630-707), returning
its result together with the trace of external AMQP operations it
performs.  The checks appear in source order: missing configuration
(`!conf || !conf->global` is the `none` configuration case,
`!conf->global->connection` and `!conf->global->exchange` the two
`none` fields), then connection resolution, then the single publish
call whose failure yields -1 with no retry.  `ast_json_dump_string` on
the documents this module builds fails only on allocation failure and
is not modelled. -/
def publish_to_amqp (conf? : Option GlobalConf) (env : AmqpEnv) (body : Json)
    (headers : Option Json) (routing_key : Bytes) : PubResult × List Op :=
  match conf? with
  | none => (.notConfigured, [])
  | some g =>
    match g.connection with
    | none => (.notConfigured, [])
    | some connection_name =>
      match g.exchange with
      | none => (.notConfigured, [])
      | some exchange_name =>
        if env.get_connection connection_name then
          ((if env.basic_publish_ok then .ok else .brokerPublishError),
            [Op.resolve connection_name,
             Op.publish (mk_publish_call exchange_name routing_key headers body)])
        else (.connectionUnavailable, [Op.resolve connection_name])

/-- A message as seen by the channel-topic subscription callback:
whether it is the final "end of subscription" sentinel
(`stasis_subscription_final_message`), and its JSON representation
(`stasis_message_to_json`, NULL for messages with none). -/
structure StasisMessage where
  is_final : Bool
  to_json : Option Json

/-- The tail of `stasis_channel_event_handler` once an event has been
accepted (res_stasis_amqp.c:381-401): build the `{name, data}` envelope
and the `{name, category}` headers, derive the routing key with the
`"stasis.channel"` preamble, and publish; a routing-key failure returns
before publishing. -/
def channel_publish_ops (conf : GlobalConf) (env : AmqpEnv) (json : Json) (event_name : Bytes) : List Op :=
  match new_routing_key (str ("stasis.channel")) event_name with
  | none => []
  | some routing_key =>
    (publish_to_amqp (some conf) env
      (Json.obj [(str ("name"), Json.str event_name), (str ("data"), json)])
      (some (Json.obj [(str ("name"), Json.str event_name),
                       (str ("category"), Json.str (str ("stasis")))]))
      routing_key).2

/-- Model of `stasis_channel_event_handler` (res_stasis_amqp.c:343-402)
as the trace of operations one callback invocation performs.  In source
order: final sentinel messages return immediately; messages without a
JSON representation return; events whose JSON has no extractable string
`"type"` are dropped; excluded events are dropped; for the event type
literally `"ChannelVarset"` the variable include filter is consulted
(the C code copies the possibly-NULL `"variable"` field with
`ast_strdupa`, modelled as the identity on the optional value) and a
rejected event is dropped; otherwise the event is published. -/
def stasis_channel_event_handler (conf : GlobalConf) (env : AmqpEnv) (msg : StasisMessage) : List Op :=
  if msg.is_final then []
  else
    match msg.to_json with
    | none => []
    | some json =>
      match json_object_string_get json (str ("type")) with
      | none => []
      | some event_name =>
        if event_excluded_b conf event_name then [Op.exclude_check event_name]
        else if event_name = str ("ChannelVarset") then
          if (is_channelvarset_included conf (json_object_string_get json (str ("variable")))).1 then
            Op.exclude_check event_name ::
              Op.varset_check (json_object_string_get json (str ("variable"))) ::
              channel_publish_ops conf env json event_name
          else [Op.exclude_check event_name,
                Op.varset_check (json_object_string_get json (str ("variable")))]
        else
          Op.exclude_check event_name :: channel_publish_ops conf env json event_name

/-- The tail of `stasis_app_event_handler` once an event has been
accepted (res_stasis_amqp.c:476-504): inject the `"application"` field
into the event document, build the `{name, data, application}` envelope
around the modified document, build the three-entry headers, derive the
routing key from the application name with the `"stasis.app"` preamble,
and publish. -/
def app_publish_ops (conf : GlobalConf) (env : AmqpEnv) (stasis_event : Json)
    (event_name app_name : Bytes) : List Op :=
  let with_app := json_object_set stasis_event (str ("application")) (Json.str app_name)
  match new_routing_key (str ("stasis.app")) app_name with
  | none => []
  | some routing_key =>
    (publish_to_amqp (some conf) env
      (Json.obj [(str ("name"), Json.str event_name), (str ("data"), with_app),
                 (str ("application"), Json.str app_name)])
      (some (Json.obj [(str ("name"), Json.str event_name),
                       (str ("category"), Json.str (str ("stasis"))),
                       (str ("application_name"), Json.str app_name)]))
      routing_key).2

/-- Model of `stasis_app_event_handler` (res_stasis_amqp.c:446-508) as
the trace of one per-application callback invocation: events with no
extractable string `"type"` are dropped, then the same exclusion and
ChannelVarset filtering as the channel handler, then `app_publish_ops`. -/
def stasis_app_event_handler (conf : GlobalConf) (env : AmqpEnv) (app_name : Bytes)
    (stasis_event : Json) : List Op :=
  match json_object_string_get stasis_event (str ("type")) with
  | none => []
  | some event_name =>
    if event_excluded_b conf event_name then [Op.exclude_check event_name]
    else if event_name = str ("ChannelVarset") then
      if (is_channelvarset_included conf
            (json_object_string_get stasis_event (str ("variable")))).1 then
        Op.exclude_check event_name ::
          Op.varset_check (json_object_string_get stasis_event (str ("variable"))) ::
          app_publish_ops conf env stasis_event event_name app_name
      else [Op.exclude_check event_name,
            Op.varset_check (json_object_string_get stasis_event (str ("variable")))]
    else
      Op.exclude_check event_name :: app_publish_ops conf env stasis_event event_name app_name

/-- The manager-protocol view of a stasis message
(`stasis_message_to_ami` result): the manager event name and the
optional extra-fields blob. -/
structure AmiBlob where
  manager_event : Bytes
  extra_fields : Option Bytes

/-- A message as seen by the manager-topic subscription callback:
whether `stasis_message_can_be_ami` holds, and the
`stasis_message_to_ami` result (NULL when the message has no AMI
representation). -/
structure AmiMessage where
  can_be_ami : Bool
  blob : Option AmiBlob

/-- Model of `ami_event_handler` (res_stasis_amqp.c:520-583): messages
without an AMI representation are skipped (capability check), excluded
manager events are dropped, then the field blob is parsed into the data
document, the `{name, data}` envelope is built, the routing key is
derived with the `"ami"` preamble and the `{name, category: "ami"}`
headers are built, and the event is published. -/
def ami_event_handler (conf : GlobalConf) (env : AmqpEnv) (msg : AmiMessage) : List Op :=
  if msg.can_be_ami then
    match msg.blob with
    | none => []
    | some blob =>
      if event_excluded_b conf blob.manager_event then [Op.exclude_check blob.manager_event]
      else
        let event_data := manager_event_to_json (Json.obj []) blob.manager_event blob.extra_fields
        match new_routing_key (str ("ami")) blob.manager_event with
        | none => [Op.exclude_check blob.manager_event]
        | some routing_key =>
          Op.exclude_check blob.manager_event ::
            (publish_to_amqp (some conf) env
              (Json.obj [(str ("name"), Json.str blob.manager_event), (str ("data"), event_data)])
              (some (Json.obj [(str ("name"), Json.str blob.manager_event),
                               (str ("category"), Json.str (str ("ami")))]))
              routing_key).2
  else []

/-- External environment of `load_module`: whether each of the two
`stasis_subscribe` calls, the scheduler-context creation and the
scheduler-thread start succeed. -/
structure LoadEnv where
  subscribe_manager_ok : Bool
  sched_create_ok : Bool
  subscribe_channel_ok : Bool
  sched_start_ok : Bool

/-- Module state after a successful load: which of the two global
subscriptions are live, and whether the scheduler thread runs. -/
structure ModuleState where
  manager_sub : Bool
  channel_sub : Bool
  sched_running : Bool

/-- Model of `load_module` (res_stasis_amqp.c:786-836), configuration
loading already done (a config failure declines the load before any
subscription exists).  In source order: the manager-topic subscription
is attempted only under `publish_ami_events` and its failure declines
the load; then the scheduler context; then the channel-topic
subscription only under `publish_channel_events`; then the scheduler
thread.  Every failure path tears the partial subscriptions down and
declines (`none`); on success the live subscriptions are exactly the
ones requested by the two flags. -/
def load_module (conf : GlobalConf) (env : LoadEnv) : Option ModuleState :=
  if conf.publish_ami_events && !env.subscribe_manager_ok then none
  else if !env.sched_create_ok then none
  else if conf.publish_channel_events && !env.subscribe_channel_ok then none
  else if !env.sched_start_ok then none
  else some { manager_sub := conf.publish_ami_events
              channel_sub := conf.publish_channel_events
              sched_running := true }

/-- Delivery of a manager-topic message after load: the message reaches
`ami_event_handler` only through the manager-stream subscription; with
no such subscription the module never sees it and performs no
operation. -/
def dispatch_manager_event (st : ModuleState) (conf : GlobalConf) (env : AmqpEnv)
    (msg : AmiMessage) : List Op :=
  if st.manager_sub then ami_event_handler conf env msg else []

/-- A byte string free of colon and space bytes forms a single token. -/
abbrev lineClean (xs : Bytes) : Prop := ∀ c ∈ xs, c ≠ 58 ∧ c ≠ 32

/-! Concrete fixtures used by the witness theorems. -/

/-- A fully configured snapshot with empty filter sets. -/
def conf0 : GlobalConf :=
  { connection := some (str ("rabbit"))
    exchange := some (str ("xchg"))
    publish_ami_events := true
    publish_channel_events := true
    exclude_events := []
    include_channelvarset_events := [] }

/-- A snapshot with a NULL connection name. -/
def confNoConn : GlobalConf :=
  { conf0 with connection := none }

/-- A snapshot with a NULL exchange name. -/
def confNoExch : GlobalConf :=
  { conf0 with exchange := none }

/-- A snapshot excluding the `Newstate` event. -/
def confEx : GlobalConf :=
  { conf0 with exclude_events := [str ("Newstate")] }

/-- A snapshot whose ChannelVarset allow-list holds only `CDR`. -/
def confCdr : GlobalConf :=
  { conf0 with include_channelvarset_events := [str ("CDR")] }

/-- A snapshot that does not publish AMI events. -/
def confNoAmi : GlobalConf :=
  { conf0 with publish_ami_events := false }

/-- An AMQP environment where everything succeeds. -/
def env0 : AmqpEnv := { get_connection := fun _ => true, basic_publish_ok := true }

/-- An AMQP environment where connection resolution fails. -/
def envDown : AmqpEnv := { get_connection := fun _ => false, basic_publish_ok := true }

/-- An AMQP environment where the broker publish call fails. -/
def envReject : AmqpEnv := { get_connection := fun _ => true, basic_publish_ok := false }

/-- A load environment where every external call succeeds. -/
def envLoad : LoadEnv :=
  { subscribe_manager_ok := true
    sched_create_ok := true
    subscribe_channel_ok := true
    sched_start_ok := true }

/-- The module state after loading with `confNoAmi` in `envLoad`. -/
def stNoAmi : ModuleState :=
  { manager_sub := false, channel_sub := true, sched_running := true }

/-- A channel event document of type `ChannelCreated`. -/
def jsonCreated : Json := Json.obj [(str ("type"), Json.str (str ("ChannelCreated")))]

/-- A `ChannelVarset` event document for the variable `CALLERID`. -/
def jsonVarset : Json :=
  Json.obj [(str ("type"), Json.str (str ("ChannelVarset"))),
            (str ("variable"), Json.str (str ("CALLERID")))]

/-- A per-application event document of type `StasisStart`. -/
def jsonStart : Json := Json.obj [(str ("type"), Json.str (str ("StasisStart")))]

/-- A non-final channel message carrying `jsonCreated`. -/
def msgCreated : StasisMessage := { is_final := false, to_json := some jsonCreated }

/-- A manager message with an AMI representation. -/
def amiMsg1 : AmiMessage :=
  { can_be_ami := true
    blob := some { manager_event := str ("Newstate")
                   extra_fields := some (str ("Channel: SIP/100\r\nState: Up")) } }

/-- The publish call the channel handler issues for `msgCreated` under
`conf0` and `env0`. -/
def chanCall : PublishCall :=
  mk_publish_call (str ("xchg")) (str ("stasis.channel.channelcreated"))
    (some (Json.obj [(str ("name"), Json.str (str ("ChannelCreated"))),
                     (str ("category"), Json.str (str ("stasis")))]))
    (Json.obj [(str ("name"), Json.str (str ("ChannelCreated"))), (str ("data"), jsonCreated)])

/-- The publish call the per-application handler issues for `jsonStart`
and application `myApp` under `conf0` and `env0`. -/
def appCall : PublishCall :=
  mk_publish_call (str ("xchg")) (str ("stasis.app.myapp"))
    (some (Json.obj [(str ("name"), Json.str (str ("StasisStart"))),
                     (str ("category"), Json.str (str ("stasis"))),
                     (str ("application_name"), Json.str (str ("myApp")))]))
    (Json.obj [(str ("name"), Json.str (str ("StasisStart"))),
               (str ("data"),
                json_object_set jsonStart (str ("application")) (Json.str (str ("myApp")))),
               (str ("application"), Json.str (str ("myApp")))])

/-- A throwaway publish call used to instantiate universally quantified
trace statements in witnesses. -/
def dummy_call : PublishCall := mk_publish_call [] [] none (Json.obj [])

/-! Helper lemmas about the tokeniser. -/

theorem splitChars_cons (delims : List Nat) (c : Nat) (rest : Bytes) :
    splitChars delims (c :: rest) =
      match splitChars delims rest with
      | [] => [[]]
      | t :: ts => if c ∈ delims then [] :: t :: ts else (c :: t) :: ts := rfl

theorem splitChars_ne_nil (delims : List Nat) (xs : Bytes) : splitChars delims xs ≠ [] := by
  induction xs with
  | nil => simp [splitChars]
  | cons c rest ih =>
    rw [splitChars_cons]
    obtain ⟨t, ts, hts⟩ := List.exists_cons_of_ne_nil ih
    rw [hts]
    by_cases hc : c ∈ delims <;> simp [hc]

theorem splitChars_clean (delims : List Nat) (xs : Bytes)
    (h : ∀ c ∈ xs, c ∉ delims) : splitChars delims xs = [xs] := by
  induction xs with
  | nil => rfl
  | cons c rest ih =>
    rw [splitChars_cons, ih (fun d hd => h d (List.mem_cons_of_mem c hd))]
    simp [h c (List.mem_cons_self c rest)]

theorem splitChars_cons_delim (delims : List Nat) (c : Nat) (rest : Bytes) (h : c ∈ delims) :
    splitChars delims (c :: rest) = [] :: splitChars delims rest := by
  rw [splitChars_cons]
  obtain ⟨t, ts, hts⟩ := List.exists_cons_of_ne_nil (splitChars_ne_nil delims rest)
  rw [hts]
  simp [h]

theorem splitChars_clean_append (delims : List Nat) (xs ys : Bytes)
    (h : ∀ c ∈ xs, c ∉ delims) :
    splitChars delims (xs ++ ys) =
      (xs ++ (splitChars delims ys).headD []) :: (splitChars delims ys).tail := by
  induction xs with
  | nil =>
    obtain ⟨t, ts, hts⟩ := List.exists_cons_of_ne_nil (splitChars_ne_nil delims ys)
    rw [List.nil_append, hts]
    rfl
  | cons c rest ih =>
    have hc : c ∉ delims := h c (List.mem_cons_self c rest)
    rw [List.cons_append, splitChars_cons, ih (fun d hd => h d (List.mem_cons_of_mem c hd))]
    simp [hc]

theorem lineClean_not_mem {xs : Bytes} (h : lineClean xs) : ∀ c ∈ xs, c ∉ ([58, 32] : List Nat) := by
  intro c hc
  have := h c hc
  simp [this.1, this.2]

theorem parseLineKV_no_value (line : Bytes) (h : lineClean line) : parseLineKV line = none := by
  unfold parseLineKV
  rw [splitChars_clean _ _ (lineClean_not_mem h)]

theorem parseLineKV_key_value (k v : Bytes) (hk : lineClean k) (hv : lineClean v) :
    parseLineKV (k ++ 58 :: 32 :: v) = some (k, v) := by
  have hsplit : splitChars [58, 32] (k ++ 58 :: 32 :: v) = k :: [] :: [v] := by
    rw [splitChars_clean_append _ _ _ (lineClean_not_mem hk),
        splitChars_cons_delim _ _ _ (by simp), splitChars_cons_delim _ _ _ (by simp),
        splitChars_clean _ _ (lineClean_not_mem hv)]
    simp
  unfold parseLineKV
  rw [hsplit]
  simp [List.getLast?]

theorem parseLineKV_last_token (k v1 v2 : Bytes)
    (hk : lineClean k) (hv1 : lineClean v1) (hv2 : lineClean v2) :
    parseLineKV (k ++ 58 :: 32 :: (v1 ++ 32 :: v2)) = some (k, v2) := by
  have hsplit : splitChars [58, 32] (k ++ 58 :: 32 :: (v1 ++ 32 :: v2))
      = k :: [] :: v1 :: [v2] := by
    rw [splitChars_clean_append _ _ _ (lineClean_not_mem hk),
        splitChars_cons_delim _ _ _ (by simp), splitChars_cons_delim _ _ _ (by simp),
        splitChars_clean_append _ _ _ (lineClean_not_mem hv1),
        splitChars_cons_delim _ _ _ (by simp),
        splitChars_clean _ _ (lineClean_not_mem hv2)]
    simp
  unfold parseLineKV
  rw [hsplit]
  simp [List.getLast?]

/-! Helper lemmas about the publish trace. -/

theorem publish_ops_cases (conf? : Option GlobalConf) (env : AmqpEnv) (body : Json)
    (headers : Option Json) (rk : Bytes) :
    (publish_to_amqp conf? env body headers rk).2 = [] ∨
    (∃ cname, (publish_to_amqp conf? env body headers rk).2 = [Op.resolve cname]) ∨
    (∃ cname exchange_name, (publish_to_amqp conf? env body headers rk).2 =
      [Op.resolve cname, Op.publish (mk_publish_call exchange_name rk headers body)]) := by
  cases conf? with
  | none => exact Or.inl rfl
  | some g =>
    cases hc : g.connection with
    | none => exact Or.inl (by simp [publish_to_amqp, hc])
    | some cname =>
      cases he : g.exchange with
      | none => exact Or.inl (by simp [publish_to_amqp, hc, he])
      | some exchange_name =>
        by_cases hg : env.get_connection cname = true
        · exact Or.inr (Or.inr ⟨cname, exchange_name, by simp [publish_to_amqp, hc, he, hg]⟩)
        · exact Or.inr (Or.inl ⟨cname, by simp [publish_to_amqp, hc, he, hg]⟩)

theorem mem_publish_ops {conf? : Option GlobalConf} {env : AmqpEnv} {body : Json}
    {headers : Option Json} {rk : Bytes} {c : PublishCall}
    (h : Op.publish c ∈ (publish_to_amqp conf? env body headers rk).2) :
    ∃ exchange_name, c = mk_publish_call exchange_name rk headers body := by
  rcases publish_ops_cases conf? env body headers rk with h0 | ⟨cn, h1⟩ | ⟨cn, ex, h2⟩
  · rw [h0] at h
    simp at h
  · rw [h1] at h
    simp at h
  · rw [h2] at h
    simp at h
    exact ⟨ex, h⟩

theorem varset_check_not_mem_publish_ops {conf? : Option GlobalConf} {env : AmqpEnv}
    {body : Json} {headers : Option Json} {rk : Bytes} {v : Option Bytes} :
    Op.varset_check v ∉ (publish_to_amqp conf? env body headers rk).2 := by
  intro h
  rcases publish_ops_cases conf? env body headers rk with h0 | ⟨cn, h1⟩ | ⟨cn, ex, h2⟩
  · rw [h0] at h
    simp at h
  · rw [h1] at h
    simp at h
  · rw [h2] at h
    simp at h

theorem varset_check_not_mem_channel_publish_ops {conf : GlobalConf} {env : AmqpEnv}
    {json : Json} {event_name : Bytes} {v : Option Bytes} :
    Op.varset_check v ∉ channel_publish_ops conf env json event_name := by
  intro h
  unfold channel_publish_ops at h
  split at h
  · simp at h
  · exact varset_check_not_mem_publish_ops h

theorem mem_channel_publish_ops {conf : GlobalConf} {env : AmqpEnv} {json : Json}
    {event_name : Bytes} {c : PublishCall}
    (h : Op.publish c ∈ channel_publish_ops conf env json event_name) :
    ∃ exchange_name rk, c = mk_publish_call exchange_name rk
      (some (Json.obj [(str ("name"), Json.str event_name),
                       (str ("category"), Json.str (str ("stasis")))]))
      (Json.obj [(str ("name"), Json.str event_name), (str ("data"), json)]) := by
  unfold channel_publish_ops at h
  split at h
  · simp at h
  · next rk _ =>
    obtain ⟨ex, hex⟩ := mem_publish_ops h
    exact ⟨ex, rk, hex⟩

theorem mem_app_publish_ops {conf : GlobalConf} {env : AmqpEnv} {stasis_event : Json}
    {event_name app_name : Bytes} {c : PublishCall}
    (h : Op.publish c ∈ app_publish_ops conf env stasis_event event_name app_name) :
    ∃ exchange_name rk, c = mk_publish_call exchange_name rk
      (some (Json.obj [(str ("name"), Json.str event_name),
                       (str ("category"), Json.str (str ("stasis"))),
                       (str ("application_name"), Json.str app_name)]))
      (Json.obj [(str ("name"), Json.str event_name),
                 (str ("data"), json_object_set stasis_event (str ("application")) (Json.str app_name)),
                 (str ("application"), Json.str app_name)]) := by
  unfold app_publish_ops at h
  split at h
  · simp at h
  · next rk _ =>
    obtain ⟨ex, hex⟩ := mem_publish_ops h
    exact ⟨ex, rk, hex⟩

theorem build_header_table_flag (headers : Option Json) :
    (build_header_table headers).1 = true ↔ 0 < headers_count headers := by
  cases headers with
  | none => simp [build_header_table, headers_count]
  | some h =>
    by_cases hl : 0 < (json_object_fields h).length <;>
      simp [build_header_table, headers_count, hl]

theorem build_header_table_length (headers : Option Json) :
    (build_header_table headers).2.length = headers_count headers := by
  cases headers with
  | none => rfl
  | some h =>
    by_cases hl : 0 < (json_object_fields h).length
    · simp [build_header_table, headers_count, hl]
    · simp [build_header_table, headers_count, hl]
      omega

/-! Claims. -/

/-- C1, counterexample: `new_routing_key` does not fail on an empty
suffix; it returns the key `"ami."` (the prefix followed by the dot),
because its only failure check — a zero return from `snprintf` — can
never fire, the formatted string always containing at least the dot. -/
theorem C1_counterexample :
    new_routing_key (str ("ami")) [] = some (str ("ami.")) ∧
    new_routing_key (str ("ami")) [] ≠ none := by decide

/-- C1, amended: for every prefix and every suffix — the empty suffix
included — the routing-key builder returns exactly prefix + "." +
lowercase(suffix), where lowercasing applies ASCII tolower byte-wise to
the suffix only (the prefix is unchanged; bytes outside 65..90, among
them all non-ASCII bytes, pass through).  An empty suffix does not
fail: it yields prefix + ".". -/
theorem C1_routing_key :
    (∀ pfx sfx : Bytes, new_routing_key pfx sfx = some (pfx ++ 46 :: sfx.map asciiToLower)) ∧
    (∀ c : Nat, 65 ≤ c → c ≤ 90 → asciiToLower c = c + 32) ∧
    (∀ c : Nat, c < 65 ∨ 90 < c → asciiToLower c = c) := by
  refine ⟨?_, ?_, ?_⟩
  · intro pfx sfx
    unfold new_routing_key
    simp
  · intro c h1 h2
    unfold asciiToLower
    rw [if_pos ⟨h1, h2⟩]
  · intro c h
    unfold asciiToLower
    rw [if_neg]
    omega

/-- C1 witness: the amended statement evaluated at concrete inputs,
among them an uppercase letter and a non-ASCII byte. -/
theorem C1_witness :
    new_routing_key (str ("stasis.channel")) (str ("ChannelCreated"))
      = some (str ("stasis.channel") ++ 46 :: (str ("ChannelCreated")).map asciiToLower) ∧
    asciiToLower 90 = 122 ∧ asciiToLower 200 = 200 :=
  ⟨C1_routing_key.1 (str ("stasis.channel")) (str ("ChannelCreated")),
   C1_routing_key.2.1 90 (by decide) (by decide),
   C1_routing_key.2.2 200 (Or.inr (by decide))⟩

/-- C2, counterexample: on the line `"State: Up now"` the parsed value
is the last colon-or-space token `"now"`, not the remainder of the line
after the first colon-or-space boundary (`"Up now"`): each later token
of the inner `strsep` loop overwrites `value`. -/
theorem C2_counterexample :
    json_object_string_get
        (manager_event_to_json (Json.obj []) (str ("E")) (some (str ("State: Up now"))))
        (str ("State")) = some (str ("now")) ∧
    json_object_string_get
        (manager_event_to_json (Json.obj []) (str ("E")) (some (str ("State: Up now"))))
        (str ("State")) ≠ some (str ("Up now")) := by decide

/-- C2, amended: the parser splits the blob at every CR or LF byte,
skips empty lines, splits each line at every colon or space byte, and
for lines with at least two tokens stores the first token as the key
and the last token as the value (not the remainder of the line after
the first boundary); lines with no separable value are skipped without
aborting the parse; the Event key is set to the management event name;
the blob of the end-to-end scenario parses to the claimed document. -/
theorem C2_manager_parse :
    (manager_event_to_json (Json.obj []) (str ("Newstate"))
        (some (str ("Channel: SIP/100\r\nState: Up")))
      = Json.obj [(str ("Event"), Json.str (str ("Newstate"))),
                  (str ("Channel"), Json.str (str ("SIP/100"))),
                  (str ("State"), Json.str (str ("Up")))]) ∧
    (∀ e : Bytes, manager_event_to_json (Json.obj []) e none
      = Json.obj [(str ("Event"), Json.str e)]) ∧
    (∀ k v : Bytes, lineClean k → lineClean v →
      parseLineKV (k ++ 58 :: 32 :: v) = some (k, v)) ∧
    (∀ k v1 v2 : Bytes, lineClean k → lineClean v1 → lineClean v2 →
      parseLineKV (k ++ 58 :: 32 :: (v1 ++ 32 :: v2)) = some (k, v2)) ∧
    (∀ line : Bytes, lineClean line → parseLineKV line = none) := by
  refine ⟨by rfl, ?_, parseLineKV_key_value, parseLineKV_last_token, parseLineKV_no_value⟩
  intro e
  simp [manager_event_to_json, json_object_set]

/-- C2 witness: the line-level statements of the amended claim evaluated
on concrete lines, a space-holding value among them. -/
theorem C2_witness :
    parseLineKV (str ("Channel") ++ 58 :: 32 :: str ("SIP/100"))
      = some (str ("Channel"), str ("SIP/100")) ∧
    parseLineKV (str ("State") ++ 58 :: 32 :: (str ("Up") ++ 32 :: str ("now")))
      = some (str ("State"), str ("now")) ∧
    parseLineKV (str ("NoSeparatorHere")) = none ∧
    manager_event_to_json (Json.obj []) (str ("Hangup")) none
      = Json.obj [(str ("Event"), Json.str (str ("Hangup")))] :=
  ⟨C2_manager_parse.2.2.1 _ _ (by decide) (by decide),
   C2_manager_parse.2.2.2.1 _ _ _ (by decide) (by decide) (by decide),
   C2_manager_parse.2.2.2.2 _ (by decide),
   C2_manager_parse.2.1 (str ("Hangup"))⟩

/-- C3: publish fails with NotConfigured, with an empty operation trace
(no connection resolution, no publish call), whenever the configuration
is absent or its connection or exchange name is unset; and fails with
ConnectionUnavailable after only a resolution attempt (no publish call)
whenever resolving the configured connection name fails. -/
theorem C3_publish_guards :
    (∀ (env : AmqpEnv) (body : Json) (headers : Option Json) (rk : Bytes),
      publish_to_amqp none env body headers rk = (.notConfigured, [])) ∧
    (∀ (g : GlobalConf) (env : AmqpEnv) (body : Json) (headers : Option Json) (rk : Bytes),
      g.connection = none →
      publish_to_amqp (some g) env body headers rk = (.notConfigured, [])) ∧
    (∀ (g : GlobalConf) (env : AmqpEnv) (body : Json) (headers : Option Json)
        (rk cname : Bytes),
      g.connection = some cname → g.exchange = none →
      publish_to_amqp (some g) env body headers rk = (.notConfigured, [])) ∧
    (∀ (g : GlobalConf) (env : AmqpEnv) (body : Json) (headers : Option Json)
        (rk cname ex : Bytes),
      g.connection = some cname → g.exchange = some ex →
      env.get_connection cname = false →
      publish_to_amqp (some g) env body headers rk
        = (.connectionUnavailable, [Op.resolve cname])) := by
  refine ⟨fun env body headers rk => rfl, ?_, ?_, ?_⟩
  · intro g env body headers rk h1
    simp [publish_to_amqp, h1]
  · intro g env body headers rk cname h1 h2
    simp [publish_to_amqp, h1, h2]
  · intro g env body headers rk cname ex h1 h2 h3
    simp [publish_to_amqp, h1, h2, h3]

/-- C3 witness: the four guard branches evaluated on concrete
configurations and a failing resolver. -/
theorem C3_witness :
    publish_to_amqp none env0 jsonCreated none (str ("rk")) = (.notConfigured, []) ∧
    publish_to_amqp (some confNoConn) env0 jsonCreated none (str ("rk"))
      = (.notConfigured, []) ∧
    publish_to_amqp (some confNoExch) env0 jsonCreated none (str ("rk"))
      = (.notConfigured, []) ∧
    publish_to_amqp (some conf0) envDown jsonCreated none (str ("rk"))
      = (.connectionUnavailable, [Op.resolve (str ("rabbit"))]) :=
  ⟨C3_publish_guards.1 env0 jsonCreated none (str ("rk")),
   C3_publish_guards.2.1 confNoConn env0 jsonCreated none (str ("rk")) rfl,
   C3_publish_guards.2.2.1 confNoExch env0 jsonCreated none (str ("rk")) (str ("rabbit")) rfl rfl,
   C3_publish_guards.2.2.2 conf0 envDown jsonCreated none (str ("rk")) (str ("rabbit"))
     (str ("xchg")) rfl rfl rfl⟩

/-- C4: with a readable configuration and a resolvable connection,
publish issues exactly one broker publish call — delivery mode 2
(persistent) with its flag, content type "application/json" with its
flag, mandatory and immediate false, a header table attached iff the
given headers mapping is non-empty — and on broker-level failure
returns BrokerPublishError with no retry: the trace carries exactly one
publish call under either broker outcome. -/
theorem C4_publish_once :
    ∀ (g : GlobalConf) (env : AmqpEnv) (body : Json) (headers : Option Json)
      (rk cname ex : Bytes),
      g.connection = some cname → g.exchange = some ex →
      env.get_connection cname = true →
      ∃ c : PublishCall,
        (publish_to_amqp (some g) env body headers rk).2
          = [Op.resolve cname, Op.publish c] ∧
        c.exchange = ex ∧ c.routing_key = rk ∧ c.body = body ∧
        c.mandatory = false ∧ c.immediate = false ∧
        c.props.delivery_mode = 2 ∧ c.props.delivery_mode_flag = true ∧
        c.props.content_type = str ("application/json") ∧ c.props.content_type_flag = true ∧
        (c.props.headers_flag = true ↔ 0 < headers_count headers) ∧
        c.props.headers_entries.length = headers_count headers ∧
        (env.basic_publish_ok = true →
          publish_to_amqp (some g) env body headers rk
            = (.ok, [Op.resolve cname, Op.publish c])) ∧
        (env.basic_publish_ok = false →
          publish_to_amqp (some g) env body headers rk
            = (.brokerPublishError, [Op.resolve cname, Op.publish c])) := by
  intro g env body headers rk cname ex h1 h2 h3
  refine ⟨mk_publish_call ex rk headers body, ?_, rfl, rfl, rfl, rfl, rfl, rfl, rfl, rfl, rfl,
    build_header_table_flag headers, build_header_table_length headers, ?_, ?_⟩
  · simp [publish_to_amqp, h1, h2, h3]
  · intro hb
    simp [publish_to_amqp, h1, h2, h3, hb]
  · intro hb
    simp [publish_to_amqp, h1, h2, h3, hb]

/-- C4 witness: a concrete accepted event yields a two-operation trace
(one resolve, one publish) and a failing broker yields
BrokerPublishError. -/
theorem C4_witness :
    (publish_to_amqp (some conf0) env0 jsonCreated
        (some (Json.obj [(str ("name"), Json.str (str ("X")))])) (str ("rk"))).2.length = 2 ∧
    (publish_to_amqp (some conf0) envReject jsonCreated none (str ("rk"))).1
      = .brokerPublishError := by
  constructor
  · obtain ⟨c, hc, -⟩ := C4_publish_once conf0 env0 jsonCreated
      (some (Json.obj [(str ("name"), Json.str (str ("X")))])) (str ("rk"))
      (str ("rabbit")) (str ("xchg")) rfl rfl rfl
    rw [hc]
    rfl
  · obtain ⟨c, -, -, -, -, -, -, -, -, -, -, -, -, -, herr⟩ :=
      C4_publish_once conf0 envReject jsonCreated none (str ("rk"))
        (str ("rabbit")) (str ("xchg")) rfl rfl rfl
    rw [herr rfl]

/-- C5: the ChannelVarset include filter answers true for every input —
a NULL variable name included — when the allow-list is empty; with a
non-empty allow-list it answers true exactly for members and always
false for a NULL variable name; the channel handler consults it only
for events whose type is literally "ChannelVarset" (for any other type,
JSON-less and type-less messages included, no consultation appears in
the trace); and a ChannelVarset event rejected by the filter is dropped
with no publish call. -/
theorem C5_varset_filter :
    (∀ (conf : GlobalConf) (v : Option Bytes), conf.include_channelvarset_events = [] →
      (is_channelvarset_included conf v).1 = true) ∧
    (∀ (conf : GlobalConf) (v : Bytes), conf.include_channelvarset_events ≠ [] →
      ((is_channelvarset_included conf (some v)).1 = true ↔
        v ∈ conf.include_channelvarset_events)) ∧
    (∀ conf : GlobalConf, conf.include_channelvarset_events ≠ [] →
      (is_channelvarset_included conf none).1 = false) ∧
    (∀ (conf : GlobalConf) (env : AmqpEnv) (msg : StasisMessage) (v : Option Bytes),
      msg.to_json.bind (fun j => json_object_string_get j (str ("type")))
        ≠ some (str ("ChannelVarset")) →
      Op.varset_check v ∉ stasis_channel_event_handler conf env msg) ∧
    (∀ (conf : GlobalConf) (env : AmqpEnv) (msg : StasisMessage) (json : Json),
      msg.to_json = some json →
      json_object_string_get json (str ("type")) = some (str ("ChannelVarset")) →
      (is_channelvarset_included conf
        (json_object_string_get json (str ("variable")))).1 = false →
      ∀ c : PublishCall, Op.publish c ∉ stasis_channel_event_handler conf env msg) := by
  refine ⟨?_, ?_, ?_, ?_, ?_⟩
  · intro conf v h
    simp [is_channelvarset_included, h]
  · intro conf v h
    simp [is_channelvarset_included, h]
  · intro conf h
    simp [is_channelvarset_included, h]
  · intro conf env msg v hne hmem
    unfold stasis_channel_event_handler at hmem
    split at hmem
    · simp at hmem
    · split at hmem
      · simp at hmem
      · split at hmem
        · simp at hmem
        · split at hmem
          · simp at hmem
          · split at hmem
            · split at hmem
              · rename_i hfin hdrs json heq1 flds e heq2 hexc hcv hinc
                exact hne (by simp [heq1, heq2, hcv])
              · rename_i hfin hdrs json heq1 flds e heq2 hexc hcv hinc
                exact hne (by simp [heq1, heq2, hcv])
            · rename_i hfin hdrs json heq1 flds e heq2 hexc hcv
              simp at hmem
              exact varset_check_not_mem_channel_publish_ops hmem
  · intro conf env msg json hj ht hvar c hmem
    unfold stasis_channel_event_handler at hmem
    split at hmem
    · simp at hmem
    · split at hmem
      · simp at hmem
      · split at hmem
        · simp at hmem
        · split at hmem
          · simp at hmem
          · split at hmem
            · split at hmem
              · rename_i hfin hdrs json2 heq1 flds e heq2 hexc hcv hinc
                rw [heq1] at hj
                injection hj with hj2
                subst hj2
                rw [hvar] at hinc
                simp at hinc
              · simp at hmem
            · rename_i hfin hdrs json2 heq1 flds e heq2 hexc hcv
              rw [heq1] at hj
              injection hj with hj2
              subst hj2
              rw [heq2] at ht
              injection ht with ht2
              exact hcv ht2

/-- C5 witness: the filter statements evaluated on concrete allow-lists,
a non-ChannelVarset event with no filter consultation, and a rejected
ChannelVarset event with no publish call. -/
theorem C5_witness :
    (is_channelvarset_included conf0 none).1 = true ∧
    (is_channelvarset_included confCdr (some (str ("CDR")))).1 = true ∧
    (is_channelvarset_included confCdr none).1 = false ∧
    Op.varset_check (some (str ("CALLERID")))
      ∉ stasis_channel_event_handler conf0 env0
          { is_final := false, to_json := some jsonCreated } ∧
    Op.publish dummy_call
      ∉ stasis_channel_event_handler confCdr env0
          { is_final := false, to_json := some jsonVarset } :=
  ⟨C5_varset_filter.1 conf0 none rfl,
   (C5_varset_filter.2.1 confCdr (str ("CDR")) (by decide)).mpr (by decide),
   C5_varset_filter.2.2.1 confCdr (by decide),
   C5_varset_filter.2.2.2.1 conf0 env0 _ _ (by decide),
   C5_varset_filter.2.2.2.2 confCdr env0 _ jsonVarset rfl (by decide) (by decide) dummy_call⟩

/-- C6: the exclusion filter answers true exactly for members of the
exclude set; with an empty exclude set it answers false for every input
— a NULL and an empty event name included — performing zero hash-table
lookups; and, being a pure function of the snapshot and the input,
repeated queries return the same answer. -/
theorem C6_exclude_filter :
    (∀ (conf : GlobalConf) (n : Bytes) (b : Bool) (k : Nat),
      is_event_excluded conf (some n) = some (b, k) →
      (b = true ↔ n ∈ conf.exclude_events)) ∧
    (∀ (conf : GlobalConf) (inp : Option Bytes), conf.exclude_events = [] →
      is_event_excluded conf inp = some (false, 0)) ∧
    (∀ (conf : GlobalConf) (inp : Option Bytes),
      is_event_excluded conf inp = is_event_excluded conf inp) := by
  refine ⟨?_, ?_, fun conf inp => rfl⟩
  · intro conf n b k h
    unfold is_event_excluded at h
    by_cases he : conf.exclude_events.isEmpty = true
    · rw [if_pos he] at h
      have hnil : conf.exclude_events = [] := List.isEmpty_iff.mp he
      simp at h
      simp [hnil, h.1.symm]
    · rw [if_neg he] at h
      simp at h
      simp [h.1.symm]
  · intro conf inp h
    simp [is_event_excluded, h]

/-- C6 witness: membership answered true on a member, and the empty-set
fast path answered `(false, 0)` — no lookup — for a NULL and for an
empty event name. -/
theorem C6_witness :
    (str ("Newstate")) ∈ confEx.exclude_events ∧
    is_event_excluded conf0 none = some (false, 0) ∧
    is_event_excluded conf0 (some []) = some (false, 0) :=
  ⟨(C6_exclude_filter.1 confEx (str ("Newstate")) true 1 (by decide)).mp rfl,
   C6_exclude_filter.2.1 conf0 none rfl,
   C6_exclude_filter.2.1 conf0 (some []) rfl⟩

/-- Shape of a successful load: field values of the resulting state. -/
theorem load_module_some {conf : GlobalConf} {env : LoadEnv} {st : ModuleState}
    (h : load_module conf env = some st) :
    st.manager_sub = conf.publish_ami_events ∧
    st.channel_sub = conf.publish_channel_events := by
  unfold load_module at h
  split at h
  · exact absurd h (by simp)
  · split at h
    · exact absurd h (by simp)
    · split at h
      · exact absurd h (by simp)
      · split at h
        · exact absurd h (by simp)
        · injection h with h2
          subst h2
          exact ⟨rfl, rfl⟩

/-- C7: on a successful module load, the management-stream subscription
is live iff publishAmiEvents and the channel-stream subscription iff
publishChannelEvents; consequently, with publishAmiEvents false no
manager subscription exists, and a management-topic message dispatched
after such a load produces no operation at all — in particular it never
reaches a publish call. -/
theorem C7_load_subscriptions :
    (∀ (conf : GlobalConf) (env : LoadEnv) (st : ModuleState),
      load_module conf env = some st →
      st.manager_sub = conf.publish_ami_events ∧
      st.channel_sub = conf.publish_channel_events) ∧
    (∀ (conf : GlobalConf) (env : LoadEnv) (st : ModuleState),
      load_module conf env = some st → conf.publish_ami_events = false →
      ∀ (aenv : AmqpEnv) (msg : AmiMessage),
        dispatch_manager_event st conf aenv msg = []) := by
  constructor
  · intro conf env st h
    exact load_module_some h
  · intro conf env st h hami aenv msg
    have hm : st.manager_sub = false := (load_module_some h).1.trans hami
    simp [dispatch_manager_event, hm]

/-- C7 witness: a load with publishAmiEvents false yields a state with
no manager subscription, on which dispatching a management event
performs nothing. -/
theorem C7_witness :
    stNoAmi.manager_sub = false ∧
    dispatch_manager_event stNoAmi confNoAmi env0 amiMsg1 = [] :=
  ⟨(C7_load_subscriptions.1 confNoAmi envLoad stNoAmi rfl).1,
   C7_load_subscriptions.2 confNoAmi envLoad stNoAmi rfl rfl env0 amiMsg1⟩

/-- C8: every publish call issued by the channel handler carries
exactly the two header entries {name: event type, category: "stasis"}
and no application_name entry; every publish call issued by the
per-application handler carries exactly the three entries
{name, category: "stasis", application_name: app}, for every
application name, the empty string included. -/
theorem C8_headers :
    (∀ (conf : GlobalConf) (env : AmqpEnv) (msg : StasisMessage) (json : Json)
        (e : Bytes) (c : PublishCall),
      msg.to_json = some json →
      json_object_string_get json (str ("type")) = some e →
      Op.publish c ∈ stasis_channel_event_handler conf env msg →
      c.props.headers_entries
        = [(str ("name"), e), (str ("category"), str ("stasis"))]) ∧
    (∀ (conf : GlobalConf) (env : AmqpEnv) (app_name : Bytes) (stasis_event : Json)
        (e : Bytes) (c : PublishCall),
      json_object_string_get stasis_event (str ("type")) = some e →
      Op.publish c ∈ stasis_app_event_handler conf env app_name stasis_event →
      c.props.headers_entries
        = [(str ("name"), e), (str ("category"), str ("stasis")),
           (str ("application_name"), app_name)]) := by
  constructor
  · intro conf env msg json e c hj ht hmem
    unfold stasis_channel_event_handler at hmem
    split at hmem
    · simp at hmem
    · split at hmem
      · simp at hmem
      · split at hmem
        · simp at hmem
        · split at hmem
          · simp at hmem
          · split at hmem
            · split at hmem
              · rename_i hfin hdrs json2 heq1 flds e2 heq2 hexc hcv hinc
                rw [heq1] at hj
                injection hj with hj2
                subst hj2
                rw [heq2] at ht
                injection ht with ht2
                subst ht2
                simp at hmem
                obtain ⟨ex, rk, hc⟩ := mem_channel_publish_ops hmem
                subst hc
                simp [mk_publish_call, build_header_table, json_object_fields, json_string_get]
              · simp at hmem
            · rename_i hfin hdrs json2 heq1 flds e2 heq2 hexc hcv
              rw [heq1] at hj
              injection hj with hj2
              subst hj2
              rw [heq2] at ht
              injection ht with ht2
              subst ht2
              simp at hmem
              obtain ⟨ex, rk, hc⟩ := mem_channel_publish_ops hmem
              subst hc
              simp [mk_publish_call, build_header_table, json_object_fields, json_string_get]
  · intro conf env app_name stasis_event e c ht hmem
    unfold stasis_app_event_handler at hmem
    split at hmem
    · simp at hmem
    · split at hmem
      · simp at hmem
      · split at hmem
        · split at hmem
          · rename_i e2 heq2 hexc hcv hinc
            rw [heq2] at ht
            injection ht with ht2
            subst ht2
            simp at hmem
            obtain ⟨ex, rk, hc⟩ := mem_app_publish_ops hmem
            subst hc
            simp [mk_publish_call, build_header_table, json_object_fields, json_string_get]
          · simp at hmem
        · rename_i e2 heq2 hexc hcv
          rw [heq2] at ht
          injection ht with ht2
          subst ht2
          simp at hmem
          obtain ⟨ex, rk, hc⟩ := mem_app_publish_ops hmem
          subst hc
          simp [mk_publish_call, build_header_table, json_object_fields, json_string_get]

/-- C8 witness: the header entries of the concrete publish calls of a
channel event and of a per-application event. -/
theorem C8_witness :
    chanCall.props.headers_entries
      = [(str ("name"), str ("ChannelCreated")), (str ("category"), str ("stasis"))] ∧
    appCall.props.headers_entries
      = [(str ("name"), str ("StasisStart")), (str ("category"), str ("stasis")),
         (str ("application_name"), str ("myApp"))] := by
  constructor
  · refine C8_headers.1 conf0 env0 msgCreated jsonCreated (str ("ChannelCreated")) chanCall
      rfl rfl ?_
    show Op.publish chanCall ∈
      [Op.exclude_check (str ("ChannelCreated")), Op.resolve (str ("rabbit")),
       Op.publish chanCall]
    exact List.Mem.tail _ (List.Mem.tail _ (List.Mem.head _))
  · refine C8_headers.2 conf0 env0 (str ("myApp")) jsonStart (str ("StasisStart")) appCall
      rfl ?_
    show Op.publish appCall ∈
      [Op.exclude_check (str ("StasisStart")), Op.resolve (str ("rabbit")),
       Op.publish appCall]
    exact List.Mem.tail _ (List.Mem.tail _ (List.Mem.head _))

/-- C9: the channel handler performs no operation at all — in
particular publishes nothing — on a final "end of subscription"
sentinel, and silently drops (empty trace) every channel event whose
JSON representation has no extractable string "type" field. -/
theorem C9_channel_drops :
    (∀ (conf : GlobalConf) (env : AmqpEnv) (msg : StasisMessage),
      msg.is_final = true → stasis_channel_event_handler conf env msg = []) ∧
    (∀ (conf : GlobalConf) (env : AmqpEnv) (msg : StasisMessage) (json : Json),
      msg.is_final = false → msg.to_json = some json →
      json_object_string_get json (str ("type")) = none →
      stasis_channel_event_handler conf env msg = []) := by
  constructor
  · intro conf env msg h
    unfold stasis_channel_event_handler
    rw [if_pos h]
  · intro conf env msg json hf hj ht
    simp [stasis_channel_event_handler, hf, hj, ht]

/-- C9 witness: the sentinel and a type-less event evaluated
concretely. -/
theorem C9_witness :
    stasis_channel_event_handler conf0 env0 { is_final := true, to_json := none } = [] ∧
    stasis_channel_event_handler conf0 env0
      { is_final := false, to_json := some (Json.obj []) } = [] :=
  ⟨C9_channel_drops.1 conf0 env0 _ rfl,
   C9_channel_drops.2 conf0 env0 _ (Json.obj []) rfl rfl rfl⟩

/-- C10: a publish with NULL headers does not fail on that account: it
behaves exactly as a publish with an empty headers mapping, and on the
accepted path it issues its publish call with the headers flag unset
and zero header entries. -/
theorem C10_null_headers :
    (∀ (conf? : Option GlobalConf) (env : AmqpEnv) (body : Json) (rk : Bytes),
      publish_to_amqp conf? env body none rk
        = publish_to_amqp conf? env body (some (Json.obj [])) rk) ∧
    (∀ (g : GlobalConf) (env : AmqpEnv) (body : Json) (rk cname ex : Bytes),
      g.connection = some cname → g.exchange = some ex →
      env.get_connection cname = true →
      ∃ c : PublishCall,
        (publish_to_amqp (some g) env body none rk).2
          = [Op.resolve cname, Op.publish c] ∧
        c.props.headers_flag = false ∧ c.props.headers_entries = []) := by
  constructor
  · intro conf? env body rk
    cases conf? with
    | none => rfl
    | some g =>
      cases hc : g.connection with
      | none => simp [publish_to_amqp, hc]
      | some cname =>
        cases he : g.exchange with
        | none => simp [publish_to_amqp, hc, he]
        | some ex =>
          by_cases hg : env.get_connection cname = true <;>
            simp [publish_to_amqp, hc, he, hg, mk_publish_call, build_header_table,
                  json_object_fields]
  · intro g env body rk cname ex h1 h2 h3
    refine ⟨mk_publish_call ex rk none body, ?_, rfl, rfl⟩
    simp [publish_to_amqp, h1, h2, h3]

/-- C10 witness: the NULL-headers publish evaluated concretely equals
the empty-headers publish and issues one resolve plus one publish. -/
theorem C10_witness :
    publish_to_amqp (some conf0) env0 jsonCreated none (str ("rk"))
      = publish_to_amqp (some conf0) env0 jsonCreated (some (Json.obj [])) (str ("rk")) ∧
    (publish_to_amqp (some conf0) env0 jsonCreated none (str ("rk"))).2.length = 2 := by
  refine ⟨C10_null_headers.1 (some conf0) env0 jsonCreated (str ("rk")), ?_⟩
  obtain ⟨c, hc, -, -⟩ := C10_null_headers.2 conf0 env0 jsonCreated (str ("rk"))
    (str ("rabbit")) (str ("xchg")) rfl rfl rfl
  rw [hc]
  rfl

end StasisAmqp
